import Mathlib

/-!
Verification development for the dialogorithm repository.

The program turns a phone-number string into a sequence of LaTeX
expressions (one per digit), wraps them into lines, and renders a
document.  This file gives a shallow embedding of the core:

* `support_files/phone_formats.py`: the per-country local digit limit
  table, `get_digit_limit`, `validate_digit_input`,
  `format_display_number`.
* `support_files/equation_bank.py`: `eq_plus`, `eq_placeholder` and the
  per-digit template provider functions `_get_0_templates` ..
  `_get_9_templates` (named `get_0_templates` .. here).
* `latex_processor.py`: `_get_unique_latex_for_digit` (named
  `get_unique_latex_for_digit`), the composition phase of
  `generate_latex_for_number` (everything up to the `latex_parts` list;
  file output and external rendering are outside the embedded core), and
  `format_equation_with_line_breaks`.

Python strings are modelled as `List Char` (for the phone-format layer,
where digit-by-digit reasoning is needed) or `String` (for the opaque
LaTeX expression snippets).  Randomness (`random.randint`,
`random.choice`) is modelled by an explicit infinite source of natural
numbers consumed one value per random call, so every theorem quantifies
over all possible random outcomes.  The mutable `used_formulas` set of
the Python code is threaded explicitly as a `List String` (only
membership and insertion are used, so list and set semantics agree).
Input characters are restricted to the ASCII range: `str.isdigit` is
modelled as an ASCII digit test (for non-ASCII digit characters both the
real code and the model place the character on the placeholder path of
`_get_unique_latex_for_digit`, since no template provider exists for
them).
-/

/-- An infinite supply of raw random values; each random primitive
consumes one value. -/
def RandSrc : Type := Nat → Nat

/-- The next raw value of the source. -/
def rhead (s : RandSrc) : Nat := s 0

/-- The source after one value has been consumed. -/
def rtail (s : RandSrc) : RandSrc := fun n => s (n + 1)

/-- Model of `random.randint(lo, hi)` (inclusive bounds): consume one raw
value and reduce it into the interval. -/
def randint (lo hi : Nat) (s : RandSrc) : Nat × RandSrc :=
  (lo + rhead s % (hi + 1 - lo), rtail s)

/-- Model of `random.choice(l)` for a nonempty list: consume one raw
value and use it as an index. -/
def choice (l : List String) (s : RandSrc) : String × RandSrc :=
  (l.getD (rhead s % l.length) "", rtail s)

/-- ASCII decimal digit test, modelling `str.isdigit` on the ASCII range. -/
def isAsciiDigit (c : Char) : Bool :=
  decide (48 ≤ c.toNat) && decide (c.toNat ≤ 57)

/-- ASCII whitespace test, modelling the default `str.strip` character
class on the ASCII range. -/
def isPySpace (c : Char) : Bool :=
  c = ' ' || c = '\t' || c = '\n' || c = '\x0d' || c = '\x0b' || c = '\x0c'

/-- Model of `str.strip()`: remove leading and trailing whitespace. -/
def pyStrip (l : List Char) : List Char :=
  ((l.dropWhile isPySpace).reverse.dropWhile isPySpace).reverse

/-- Model of Python `s.isdigit()` for a whole string: nonempty and all
digits (note: `"".isdigit()` is `False` in Python). -/
def pyStrIsDigit (l : List Char) : Bool :=
  !l.isEmpty && l.all isAsciiDigit
def get_0_templates (s : RandSrc) : List String × RandSrc :=
  let (n, s1) := randint 1 3 s
  ([
    "\\left( d^2\\omega \\right)",
    "\\left( H^1(\\mathbb\x7bP\x7d^2, \\mathcal\x7bO\x7d(-" ++ toString n ++ ")) \\right)",
    "\\left( \\text\x7bch\x7d_0(\\mathcal\x7bE\x7d \\otimes \\mathcal\x7bF\x7d) - \\text\x7bch\x7d_0(\\mathcal\x7bE\x7d) \\cdot \\text\x7bch\x7d_0(\\mathcal\x7bF\x7d) \\right)",
    "\\left( c_1(SU(n)) \\right)",
    "\\left( p_1(M^3) \\right)",
    "\\left( \\partial_n \\circ \\partial_\x7bn+1\x7d \\right)",
    "\\left( H_n(\\text\x7bpt\x7d), n>0 \\right)",
    "\\left( \\operatorname\x7bExt\x7d^1_\x7b\\mathbb\x7bZ\x7d\x7d(\\mathbb\x7bZ\x7d/n\\mathbb\x7bZ\x7d, \\mathbb\x7bQ\x7d) \\right)",
    "\\left( \\chi(SU(n)) \\right)",
    "\\left( \\operatorname\x7bTor\x7d_1^\x7b\\mathbb\x7bZ\x7d\x7d(\\mathbb\x7bZ\x7d/n\\mathbb\x7bZ\x7d, \\mathbb\x7bQ\x7d) \\right)",
    "\\left( \\sigma(\\partial W) \\right)",
    "\\left( \\hat\x7bA\x7d(\\partial W) \\right)",
    "\\left( [\\mathbf\x7bX\x7d, \\mathbf\x7bX\x7d] \\right)",
    "\\left( [X, [Y, Z]] + [Y, [Z, X]] + [Z, [X, Y]] \\right)",
    "\\left( \\operatorname\x7bTr\x7d(T^a), T^a \\in \\mathfrak\x7bsu\x7d(n) \\right)",
    "\\left( \\langle \\chi_i, \\chi_j \\rangle_\x7bi \\neq j\x7d \\right)",
    "\\left( \\text\x7bindex\x7d(D_\x7b\\text\x7bodd dim\x7d\x7d) \\right)",
    "\\left( \\sum_\x7bN=1\x7d^\x7b\\infty\x7d \\frac\x7b\\mu(N)\x7d\x7bN\x7d \\right)",
    "\\left( \\Gamma(z)\\Gamma(1-z)\\sin(\\pi z) - \\pi \\right)",
    "\\left( \\lim_\x7b\\tau \\to i\\infty\x7d f(\\tau) \\text\x7b for \x7d f \\in S_k(\\Gamma_0(N)) \\right)",
    "\\left( \\operatorname\x7brank\x7d_\x7ban\x7d(E) - \\operatorname\x7brank\x7d_\x7balg\x7d(E) \\right)",
    "\\left( J_\x7b" ++ toString n ++ "\x7d(z) Y_\x7b" ++ toString n ++ "-1\x7d(z) - J_\x7b" ++ toString n ++ "-1\x7d(z) Y_\x7b" ++ toString n ++ "\x7d(z) + \\frac\x7b2\x7d\x7b\\pi z\x7d \\right)",
    "\\left( \\langle[\\hat\x7bx\x7d, \\hat\x7bp\x7d_x]\\rangle - i\\hbar \\right)",
    "\\left( \\nabla_\\mu g^\x7b\\alpha \\beta\x7d \\right)"
  ], s1)

def get_1_templates (s : RandSrc) : List String × RandSrc :=
  let (s_val, s1) := randint 2 4 s
  ([
    "\\left( \\text\x7brk\x7d(\\text\x7bPic\x7d(\\mathbb\x7bP\x7d^1)) \\right)",
    "\\left( \\text\x7bdim\x7d(\\mathfrak\x7bso\x7d(2)) \\right)",
    "\\left( \\text\x7brank\x7d(\\text\x7bK\x7d_0(\\text\x7bSpec\x7d(\\mathbb\x7bZ\x7d))) \\right)",
    "\\left( \\frac\x7b\\det(e^\x7b" ++ "A" ++ "\x7d)\x7d\x7be^\x7b\\operatorname\x7bTr\x7d(" ++ "A" ++ ")\x7d\x7d \\right)",
    "\\left( \\text\x7brank\x7d(\\mathfrak\x7bsu\x7d(2)) \\right)",
    "\\left( \\chi_V(e) / \\dim(V) \\right)",
    "\\left( |Z(S_3)| \\right)",
    "\\left( \\text\x7bdim\x7d_\x7b\\mathbb\x7bC\x7d\x7d H^\x7b0,0\x7d(X) \\right)",
    "\\left( h^\x7b1,1\x7d(\\mathbb\x7bP\x7d^1) \\right)",
    "\\left( \\chi(\\text\x7bSpec\x7d(\\mathbb\x7bC\x7d)) \\right)",
    "\\left( \\frac\x7b1\x7d\x7b2\x7d\\chi(\\mathbb\x7bS\x7d^\x7b0\x7d) \\right)",
    "\\left( \\text\x7bdim\x7d(H^0(\\mathbb\x7bP\x7d^1, \\mathcal\x7bO\x7d(0))) \\right)",
    "\\left( \\text\x7bgenus\x7d(\\mathbb\x7bP\x7d^1) + 1 \\right)",
    "\\left( \\deg(\\mathbb\x7bP\x7d^0) \\right)",
    "\\left( \\frac\x7b(d-1)(d-2)\x7d\x7b2\x7d|_\x7bd=3\x7d \\right)",
    "\\left( \\text\x7blk\x7d(L2a1) \\right)",
    "\\left( b_0(\\mathbb\x7bT\x7d^n) \\right)",
    "\\left( \\zeta(0) + \\frac\x7b3\x7d\x7b2\x7d \\right)",
    "\\left( \\lim_\x7bs \\to 1\x7d (s-1)\\zeta(s) \\right)",
    "\\left( \\prod_p \\left(1 + \\frac\x7b1\x7d\x7bp(p-1)\x7d\\right) / \\left(\\frac\x7b\\zeta(2)\\zeta(3)\x7d\x7b\\zeta(6)\x7d\\right) \\right)",
    "\\left( \\sum_\x7bidx=1\x7d^\x7b\\infty\x7d \\frac\x7b\\mu(idx)\x7d\x7bidx\x7d + 1 \\right)",
    "\\left( h(-4) \\right)",
    "\\left( \\lambda([0,1]) \\right)",
    "\\left( \\int_0^\x7b\\infty\x7d \\frac\x7bx^\x7b" ++ toString s_val ++ "-1\x7d\x7d\x7be^x - 1\x7d \\,dx \\cdot \\frac\x7b1\x7d\x7b\\Gamma(" ++ toString s_val ++ ")\\zeta(" ++ toString s_val ++ ")\x7d \\right)"
  ], s1)

def get_2_templates (s : RandSrc) : List String × RandSrc :=
  let (_n, s1) := randint 1 3 s
  let (s_val, s2) := randint 2 4 s1
  ([
    "\\left( \\text\x7brank\x7d(\\mathfrak\x7bsl\x7d_3(\\mathbb\x7bC\x7d)) \\right)",
    "\\left( \\dim H^1(S_3, \\mathbb\x7bC\x7d^*) \\right)",
    "\\left( \\text\x7bdim\x7d(\\mathfrak\x7bu\x7d(1)) \\cdot 2 \\right)",
    "\\left( \\text\x7bdim\x7d(\\mathfrak\x7bso\x7d(3)) - 1 \\right)",
    "\\left( \\text\x7brank\x7d(\\mathfrak\x7bso\x7d(4)) \\right)",
    "\\left( \\dim(\\mathfrak\x7bsl\x7d_2(\\mathbb\x7bC\x7d))-1 \\right)",
    "\\left( \\text\x7brk\x7d(\\text\x7bPic\x7d(\\mathbb\x7bP\x7d^1)) + 1 \\right)",
    "\\left( \\text\x7bdim\x7d(H^0(\\mathbb\x7bP\x7d^1, \\mathcal\x7bO\x7d(1))) \\right)",
    "\\left( b_0(\\mathbb\x7bS\x7d^1) + b_1(\\mathbb\x7bS\x7d^1) \\right)",
    "\\left( b_1(\\mathbb\x7bT\x7d^2) \\right)",
    "\\left( \\deg(Q \\subset \\mathbb\x7bP\x7d^3) \\right)",
    "\\left( \\chi(\\mathbb\x7bCP\x7d^2) - 1 \\right)",
    "\\left( \\sum_i b_\x7b2i\x7d(\\mathbb\x7bCP\x7d^1) \\right)",
    "\\left( \\deg(\\mathbb\x7bV\x7d(x_0x_2 - x_1^2)) \\right)",
    "\\left( \\zeta(0) + \\frac\x7b5\x7d\x7b2\x7d \\right)",
    "\\left( \\lim_\x7bs \\to 1\x7d 2(s-1)\\zeta(s) \\right)",
    "\\left( h(-15) \\right)",
    "\\left( \\phi(\\phi(5)) \\right)",
    "\\left( h(-23) - 1 \\right)",
    "\\left( |\\\x7b\\mathfrak\x7bp\x7d \\subset \\mathbb\x7bZ\x7d[i] \\mid \\mathfrak\x7bp\x7d | (5)\\\x7d| \\right)",
    "\\left( \\phi(4) \\right)",
    "\\left( |\\text\x7bAut\x7d(S_3)| - 4 \\right)",
    "\\left( \\text\x7brank\x7d(\\text\x7bK\x7d_0(\\mathbb\x7bP\x7d^1)) \\right)",
    "\\left( \\text\x7brank\x7d(\\mathbb\x7bZ\x7d/2\\mathbb\x7bZ\x7d \\times \\mathbb\x7bZ\x7d/2\\mathbb\x7bZ\x7d) \\right)",
    "\\left( \\left(\\int_0^\x7b\\infty\x7d \\frac\x7bx^\x7b" ++ toString s_val ++ "-1\x7d\x7d\x7be^x - 1\x7d \\,dx \\cdot \\frac\x7b1\x7d\x7b\\Gamma(" ++ toString s_val ++ ")\\zeta(" ++ toString s_val ++ ")\x7d\\right) \\cdot 2 \\right)"
  ], s2)

def get_3_templates (s : RandSrc) : List String × RandSrc :=
  ([
    "\\left( \\text\x7bdim\x7d(\\mathfrak\x7bsl\x7d_2(\\mathbb\x7bC\x7d)) \\right)",
    "\\left( \\text\x7bdim\x7d(\\mathfrak\x7bsu\x7d(2)) \\right)",
    "\\left( \\text\x7bdim\x7d(\\text\x7bSO\x7d(3)) \\right)",
    "\\left( \\dim(\\text\x7bad\x7d(\\mathfrak\x7bsu\x7d(2))) \\right)",
    "\\left( |W(A_2)| - 3 \\right)",
    "\\left( \\text\x7brank\x7d(\\mathfrak\x7bso\x7d(7)) \\right)",
    "\\left( |Irr(S_3)| \\right)",
    "\\left( \\dim(\\mathfrak\x7bg\x7d_2) - 11 \\right)",
    "\\left( \\dim(\\mathfrak\x7bf\x7d_4) - 49 \\right)",
    "\\left( \\text\x7brank\x7d(\\mathfrak\x7be\x7d_7) - 4 \\right)",
    "\\left( \\text\x7bdim\x7d(H^0(\\mathbb\x7bP\x7d^2, \\mathcal\x7bO\x7d(1))) \\right)",
    "\\left( \\chi(\\mathbb\x7bCP\x7d^2) \\right)",
    "\\left( [\\mathbb\x7bQ\x7d(\\sqrt[3]\x7b2\x7d) : \\mathbb\x7bQ\x7d] \\right)",
    "\\left( b_1(\\mathbb\x7bT\x7d^3) \\right)",
    "\\left( c(3_1) \\right)",
    "\\left( \\dim(k[x,y,z]) \\right)",
    "\\left( \\deg(\\nu_3(\\mathbb\x7bP\x7d^1)) \\right)",
    "\\left( c_1(T_\x7b\\mathbb\x7bP\x7d^2\x7d) \\cdot H \\right)",
    "\\left( \\sigma(E_8) - 5 \\right)",
    "\\left( \\zeta(-1) + \\frac\x7b37\x7d\x7b12\x7d \\right)",
    "\\left( h(-23) \\right)",
    "\\left( \\omega(30) \\right)",
    "\\left( |\\mathbb\x7bA\x7d_3| \\right)",
    "\\left( \\text\x7brank\x7d(\\mathfrak\x7be\x7d_8) - 5 \\right)",
    "\\left( \\frac\x7b\\Gamma(4)\\Gamma(2)\x7d\x7b\\Gamma(3)\x7d \\right)"
  ], s)

def get_4_templates (s : RandSrc) : List String × RandSrc :=
  ([
    "\\left( \\text\x7bdim\x7d(\\mathfrak\x7bso\x7d(5)) - 6 \\right)",
    "\\left( \\text\x7brank\x7d(\\mathfrak\x7bso\x7d(8)) \\right)",
    "\\left( \\dim(\\text\x7bspinor rep of \x7d SO(5)) \\right)",
    "\\left( \\dim(\\mathfrak\x7bg\x7d_2) - 10 \\right)",
    "\\left( \\text\x7brank\x7d(\\mathfrak\x7be\x7d_7) - 3 \\right)",
    "\\left( |W(A_2)| - 2 \\right)",
    "\\left( \\dim(\\text\x7bad\x7d(\\mathfrak\x7bsl\x7d_2(\\mathbb\x7bC\x7d))) + 1 \\right)",
    "\\left( \\dim(\\mathfrak\x7bsu\x7d(3)) - 4 \\right)",
    "\\left( \\text\x7bdim\x7d(H^0(\\mathbb\x7bP\x7d^3, \\mathcal\x7bO\x7d(1))) \\right)",
    "\\left( \\chi(\\mathbb\x7bP\x7d^2) + 1 \\right)",
    "\\left( \\text\x7bdim\x7d(\\text\x7bEnd\x7d(\\mathbb\x7bC\x7d^2)) \\right)",
    "\\left( \\deg(\\nu_2(\\mathbb\x7bP\x7d^2)) \\right)",
    "\\left( \\sum_i b_i(\\mathbb\x7bT\x7d^2) \\right)",
    "\\left( \\text\x7brank\x7d(\\pi_1(\\Sigma_2)) \\right)",
    "\\left( c_1(T_\x7b\\mathbb\x7bP\x7d^1 \\times \\mathbb\x7bP\x7d^1\x7d)^2 - 4 \\right)",
    "\\left( \\deg(K_\x7b\\mathbb\x7bP\x7d^2\x7d) + 7 \\right)",
    "\\left( \\zeta(-3) + \\frac\x7b479\x7d\x7b120\x7d \\right)",
    "\\left( h(-39) \\right)",
    "\\left( h(-51) \\right)",
    "\\left( h(-52) \\right)",
    "\\left( |\\\x7b\\mathfrak\x7bp\x7d \\subset \\mathbb\x7bZ\x7d[i] \\mid \\mathfrak\x7bp\x7d | (13)\\\x7d| + 2 \\right)",
    "\\left( \\text\x7bdepth\x7d(k[[w,x,y,z]]) \\right)",
    "\\left( \\text\x7brank\x7d(K_0(\\mathbb\x7bP\x7d^1)) + 2 \\right)",
    "\\left( \\operatorname\x7bRes\x7d_\x7bz=0\x7d \\frac\x7b4\\cos(z)\x7d\x7bz\x7d \\right)",
    "\\left( \\sigma(E_8) - 4 \\right)"
  ], s)

def get_5_templates (s : RandSrc) : List String × RandSrc :=
  ([
    "\\left( \\text\x7bdim\x7d(\\mathfrak\x7bsp\x7d(4,\\mathbb\x7bC\x7d)) - 5 \\right)",
    "\\left( \\dim(\\text\x7bU\x7d(2)) + 1 \\right)",
    "\\left( |Irr(D_4)| \\right)",
    "\\left( \\text\x7brank\x7d(\\mathfrak\x7bso\x7d(11)) \\right)",
    "\\left( \\dim(\\mathfrak\x7bg\x7d_2) - 9 \\right)",
    "\\left( \\text\x7brank\x7d(\\mathfrak\x7be\x7d_8) - 3 \\right)",
    "\\left( \\sigma(E_8) - 3 \\right)",
    "\\left( |W(A_2)| - 1 \\right)",
    "\\left( \\text\x7bdim\x7d(\\text\x7bSymp\x7d^5(\\mathbb\x7bC\x7d^2)) - 1 \\right)",
    "\\left( \\text\x7bdim\x7d(H^0(\\mathbb\x7bP\x7d^4, \\mathcal\x7bO\x7d(1))) \\right)",
    "\\left( \\chi(\\mathbb\x7bP\x7d^2) + 2 \\right)",
    "\\left( \\chi(K_5) \\right)",
    "\\left( c_1(T_\x7b\\mathbb\x7bP\x7d^2\x7d)^2 - 4 \\right)",
    "\\left( b_1(\\mathbb\x7bT\x7d^2) \\cdot 2 + 1 \\right)",
    "\\left( \\deg(\\nu_4(\\mathbb\x7bP\x7d^1)) + 1 \\right)",
    "\\left( h(-47) \\right)",
    "\\left( v_2(40) \\right)",
    "\\left( h(-23) + 2 \\right)",
    "\\left( \\zeta(-3) \\cdot 120 + 4 \\right)",
    "\\left( \\text\x7bdim\x7d(\\mathfrak\x7bsl\x7d_2(\\mathbb\x7bC\x7d)) + 2 \\right)",
    "\\left( \\text\x7brank\x7d(\\mathfrak\x7be\x7d_6) - 1 \\right)",
    "\\left( \\text\x7brank\x7d(\\mathfrak\x7be\x7d_7) - 2 \\right)",
    "\\left( \\dim(\\mathfrak\x7bso\x7d(4)) + \\zeta(0) + 1/2 \\right)",
    "\\left( \\dim(\\Lambda^2(\\mathbb\x7bC\x7d^4)) - 1 \\right)"
  ], s)

def get_6_templates (s : RandSrc) : List String × RandSrc :=
  ([
    "\\left( \\text\x7bdim\x7d(\\mathfrak\x7bso\x7d(4,\\mathbb\x7bR\x7d)) \\right)",
    "\\left( \\text\x7brank\x7d(\\mathfrak\x7be\x7d_6) \\right)",
    "\\left( |W(A_2)| \\right)",
    "\\left( \\dim(\\mathfrak\x7bso\x7d(5)) - \\text\x7brank\x7d(\\mathfrak\x7bso\x7d(8)) \\right)",
    "\\left( \\dim(\\Lambda^2(\\mathbb\x7bC\x7d^4)) \\right)",
    "\\left( \\dim(\\mathfrak\x7bsu\x7d(3)) - 2 \\right)",
    "\\left( \\dim(\\mathfrak\x7bsp\x7d(4,\\mathbb\x7bC\x7d)) - 4 \\right)",
    "\\left( \\dim(\\mathfrak\x7bg\x7d_2) - 8 \\right)",
    "\\left( \\text\x7bdim\x7d(\\text\x7bSymp\x7d^6(\\mathbb\x7bC\x7d^2)) - 1 \\right)",
    "\\left( e_0(Q, R)|_\x7bR=k[x], Q=(x^6)\x7d \\right)",
    "\\left( -2 \\deg(K_\x7b\\mathbb\x7bP\x7d^2\x7d) \\right)",
    "\\left( b_1(\\mathbb\x7bT\x7d^2) \\cdot 3 \\right)",
    "\\left( h^\x7b2,0\x7d(\\text\x7bK3 surface\x7d) + 5 \\right)",
    "\\left( \\chi(\\mathbb\x7bCP\x7d^2) \\cdot 2 \\right)",
    "\\left( c_1^2(\\mathbb\x7bP\x7d^2) - 3 \\right)",
    "\\left( \\zeta(-5) + \\frac\x7b1513\x7d\x7b252\x7d \\right)",
    "\\left( h(-87) \\right)",
    "\\left( h(-23) \\cdot 2 \\right)",
    "\\left( -v_p(p^3!) + 3p+1 |_\x7bp=2\x7d \\right)",
    "\\left( |\\text\x7bAut\x7d(V_4)| \\right)",
    "\\left( \\operatorname\x7bRes\x7d_\x7bz=0\x7d \\frac\x7be^\x7b6z\x7d-1\x7d\x7bz^2\x7d \\right)",
    "\\left( \\dim(\\mathfrak\x7bsl\x7d_2(\\mathbb\x7bC\x7d)) \\cdot 2 \\right)",
    "\\left( \\zeta(0) \\cdot (-12) \\right)",
    "\\left( \\text\x7brank\x7d(\\mathfrak\x7be\x7d_8) - 2 \\right)"
  ], s)

def get_7_templates (s : RandSrc) : List String × RandSrc :=
  ([
    "\\left( \\text\x7brank\x7d(\\mathfrak\x7be\x7d_7) \\right)",
    "\\left( \\dim(V_7) \\right)",
    "\\left( \\dim(\\text\x7bad\x7d(\\mathfrak\x7bsu\x7d(3))) - 1 \\right)",
    "\\left( \\dim(L(6\\omega_1)_0) \\text\x7b for \x7d A_1 \\right)",
    "\\left( \\dim(\\text\x7bHom\x7d_\x7bA_1\x7d(V_\x7b5\x7d, V_\x7b1\x7d \\otimes V_\x7b5\x7d)) \\right)",
    "\\left( |W(A_2)| + 1 \\right)",
    "\\left( \\dim(\\mathfrak\x7bsp\x7d(4,\\mathbb\x7bC\x7d)) - 3 \\right)",
    "\\left( \\text\x7bmult\x7d_0(\\mathbb\x7bC\x7d[x_1..x_7]/(x_1..x_7)) \\right)",
    "\\left( \\text\x7bdim\x7d(\\text\x7bSymp\x7d^7(\\mathbb\x7bC\x7d^2)) - 1 \\right)",
    "\\left( c_2(T_\x7b\\mathbb\x7bP\x7d^3\x7d) \\cdot H - 5 \\right)",
    "\\left( h^\x7b1,1\x7d(X) - h^\x7b2,1\x7d(X) + 6 |_\x7bX=\\text\x7bquintic\x7d\x7d \\right)",
    "\\left( \\chi(\\text\x7bdP\x7d_2) + 5 \\right)",
    "\\left( \\deg(\\nu_6(\\mathbb\x7bP\x7d^1)) + 1 \\right)",
    "\\left( c(4_1) + 2 \\right)",
    "\\left( h(-71) \\right)",
    "\\left( (x^2+7=2^n)|_\x7bn=5\x7d \\rightarrow x \\right)",
    "\\left( \\sum_\x7bk=1\x7d^5 p(5,k) \\right)",
    "\\left( \\phi(14) + 1 \\right)",
    "\\left( \\zeta(-3) \\cdot 120 + 6 \\right)",
    "\\left( h(-47) + 2 \\right)",
    "\\left( \\dim(\\text\x7bM-Theory\x7d) - 4 \\right)",
    "\\left( \\sigma(E_8) - 1 \\right)",
    "\\left( \\dim(\\mathfrak\x7bg\x7d_2) - 7 \\right)",
    "\\left( \\text\x7brank\x7d(\\mathfrak\x7be\x7d_6) + 1 \\right)",
    "\\left( \\left(\\int_\x7b-\\infty\x7d^\x7b\\infty\x7d \\frac\x7bdx\x7d\x7b(1+x^2)^4\x7d\\right) \\cdot \\frac\x7b112\x7d\x7b5\\pi\x7d \\right)"
  ], s)

def get_8_templates (s : RandSrc) : List String × RandSrc :=
  ([
    "\\left( \\text\x7bdim\x7d(\\mathfrak\x7bsl\x7d(3,\\mathbb\x7bC\x7d)) \\right)",
    "\\left( \\text\x7bdim\x7d(\\mathfrak\x7bso\x7d(5)) - 2 \\right)",
    "\\left( \\text\x7bdim\x7d(\\text\x7bSU\x7d(3)) \\right)",
    "\\left( \\text\x7brank\x7d(\\mathfrak\x7be\x7d_8) \\right)",
    "\\left( \\dim(\\text\x7bad\x7d(\\mathfrak\x7bsl\x7d_3(\\mathbb\x7bC\x7d))) \\right)",
    "\\left( |\\Delta(\\mathfrak\x7bsp\x7d_4)| \\right)",
    "\\left( \\dim(\\mathfrak\x7bf\x7d_4) - 44 \\right)",
    "\\left( \\dim(\\mathfrak\x7bg\x7d_2) - 6 \\right)",
    "\\left( \\dim(\\mathfrak\x7be\x7d_7) - 125 \\right)",
    "\\left( \\text\x7bdim\x7d(\\text\x7bSymp\x7d^8(\\mathbb\x7bC\x7d^2)) - 1 \\right)",
    "\\left( \\sigma(E_8) \\right)",
    "\\left( c_1(T_\x7b\\mathbb\x7bP\x7d^1 \\times \\mathbb\x7bP\x7d^1\x7d)^2 \\right)",
    "\\left( h^\x7b2,1\x7d(\\text\x7bquintic\x7d) - 93 \\right)",
    "\\left( b_1(\\mathbb\x7bT\x7d^2) \\cdot 4 \\right)",
    "\\left( \\chi(\\mathbb\x7bCP\x7d^3) + 4 \\right)",
    "\\left( \\tau(24) \\right)",
    "\\left( \\phi(15) \\right)",
    "\\left( h(-47) + 3 \\right)",
    "\\left( |W(A_2)| + 2 \\right)",
    "\\left( \\left(\\int_\x7b-\\infty\x7d^\x7b\\infty\x7d \\frac\x7bdx\x7d\x7b(1+x^2)^4\x7d\\right) \\cdot \\frac\x7b128\x7d\x7b5\\pi\x7d \\right)",
    "\\left( \\operatorname\x7bRes\x7d_\x7bz=0\x7d \\frac\x7b8\\cosh(z)\x7d\x7bz\x7d \\right)",
    "\\left( \\operatorname\x7bRes\x7d_\x7bz=0\x7d \\frac\x7b\\sinh(8z)\x7d\x7bz^2\x7d \\right)",
    "\\left( \\text\x7brank\x7d(\\mathfrak\x7be\x7d_6) + 2 \\right)",
    "\\left( \\chi(\\mathbb\x7bCP\x7d^2) \\cdot 3 - 1 \\right)"
  ], s)

def get_9_templates (s : RandSrc) : List String × RandSrc :=
  ([
    "\\left( \\text\x7bdim\x7d(\\mathfrak\x7bso\x7d(3) \\otimes \\mathfrak\x7bso\x7d(3)) \\right)",
    "\\left( \\dim(\\mathfrak\x7bsl\x7d(3,\\mathbb\x7bC\x7d)) + 1 \\right)",
    "\\left( \\text\x7brank\x7d(\\mathfrak\x7be\x7d_8) + 1 \\right)",
    "\\left( \\sigma(E_8) + 1 \\right)",
    "\\left( |W(A_2)| + 3 \\right)",
    "\\left( \\dim(\\mathfrak\x7bg\x7d_2) - 5 \\right)",
    "\\left( \\dim(\\mathfrak\x7bf\x7d_4) - 43 \\right)",
    "\\left( \\dim(\\mathfrak\x7be\x7d_7) - 124 \\right)",
    "\\left( \\dim(\\text\x7bad\x7d(\\mathfrak\x7bsu\x7d(3))) + 1 \\right)",
    "\\left( \\text\x7bdim\x7d(\\text\x7bSymp\x7d^9(\\mathbb\x7bC\x7d^2)) - 1 \\right)",
    "\\left( c_1(T_\x7b\\mathbb\x7bP\x7d^2\x7d)^2 \\right)",
    "\\left( h^\x7b1,1\x7d(\\text\x7bK3 surface\x7d) - 11 \\right)",
    "\\left( b_1(\\mathbb\x7bT\x7d^3) \\cdot 3 \\right)",
    "\\left( c(5_1) + 4 \\right)",
    "\\left( h(-199) \\right)",
    "\\left( \\tau(36) \\right)",
    "\\left( v_3(3^4!) \\right)",
    "\\left( h(-87) + 3 \\right)",
    "\\left( h(-47) + 4 \\right)",
    "\\left( \\deg(\\nu_8(\\mathbb\x7bP\x7d^1)) + 1 \\right)",
    "\\left( \\left(\\int_\x7b-\\infty\x7d^\x7b\\infty\x7d \\frac\x7bdx\x7d\x7b(1+x^2)^5\x7d\\right) \\cdot \\frac\x7b1152\x7d\x7b35\\pi\x7d \\right)",
    "\\left( \\operatorname\x7bRes\x7d_\x7bz=0\x7d \\frac\x7b9-z^2\x7d\x7bz(1-z)\x7d \\right)",
    "\\left( \\text\x7brank\x7d(\\mathfrak\x7be\x7d_7) + 2 \\right)",
    "\\left( \\text\x7brank\x7d(\\mathfrak\x7be\x7d_6) + 3 \\right)",
    "\\left( \\dim(\\mathfrak\x7bso\x7d(5)) - 1 \\right)"
  ], s)

def LOCAL_DIGIT_LIMITS_BY_CODE : List (Nat × Nat) := [
  (1, 10), (7, 10), (20, 9), (27, 9), (30, 10), (31, 9), (32, 9), (33, 10),
  (34, 9), (36, 9), (39, 10), (40, 9), (41, 9), (43, 11), (44, 11), (45, 8),
  (46, 9), (47, 8), (48, 9), (49, 11), (51, 9), (52, 10), (53, 8), (54, 10),
  (55, 11), (56, 9), (57, 10), (58, 10), (60, 9), (61, 9), (62, 11), (63, 10),
  (64, 9), (65, 8), (66, 9), (81, 10), (82, 10), (84, 9), (86, 11), (90, 10),
  (91, 10), (92, 10), (93, 9), (94, 9), (95, 9), (98, 10), (211, 9), (212, 9),
  (213, 9), (216, 8), (218, 9), (220, 7), (221, 9), (222, 8), (223, 8), (224, 9),
  (225, 8), (226, 8), (227, 8), (228, 8), (229, 8), (230, 7), (231, 8), (232, 8),
  (233, 9), (234, 10), (235, 8), (236, 8), (237, 9), (238, 7), (239, 7), (240, 9),
  (241, 8), (242, 9), (243, 9), (244, 9), (245, 7), (248, 7), (249, 9), (250, 9),
  (251, 9), (252, 8), (253, 8), (254, 9), (255, 9), (256, 9), (257, 8), (258, 9),
  (260, 9), (261, 10), (262, 9), (263, 9), (264, 9), (265, 9), (266, 8), (267, 8),
  (268, 8), (269, 7), (290, 4), (291, 7), (297, 7), (298, 6), (299, 6), (350, 8),
  (351, 9), (352, 9), (353, 9), (354, 7), (355, 9), (356, 8), (357, 8), (358, 10),
  (359, 9), (370, 8), (371, 8), (372, 8), (373, 8), (374, 8), (375, 9), (376, 6),
  (377, 8), (378, 10), (380, 9), (381, 9), (382, 8), (383, 8), (385, 9), (386, 8),
  (387, 8), (389, 8), (420, 9), (421, 9), (423, 7), (500, 5), (501, 7), (502, 8),
  (503, 8), (504, 8), (505, 8), (506, 8), (507, 8), (508, 6), (509, 8), (590, 9),
  (591, 8), (592, 7), (593, 9), (594, 9), (595, 9), (596, 9), (597, 7), (598, 8),
  (599, 7), (670, 8), (671, 7), (672, 6), (673, 7), (674, 7), (675, 8), (676, 7),
  (677, 7), (678, 7), (679, 7), (680, 7), (681, 6), (682, 5), (683, 4), (684, 7),
  (685, 7), (686, 8), (687, 6), (688, 5), (689, 8), (690, 4), (691, 7), (692, 7),
  (850, 10), (852, 8), (853, 8), (855, 9), (856, 10), (872, 6), (880, 10), (886, 9),
  (960, 7), (961, 8), (962, 9), (963, 9), (964, 10), (965, 8), (966, 9), (967, 9),
  (968, 8), (970, 9), (971, 9), (972, 9), (973, 8), (974, 8), (975, 8), (976, 8),
  (977, 10), (992, 9), (993, 8), (994, 9), (995, 9), (996, 9), (998, 9)
]
/-- Chunks of one or two characters, modelling
`re.findall(r".{1,2}", digits)`. -/
def chunk2 : List Char → List (List Char)
  | [] => []
  | [a] => [[a]]
  | a :: b :: rest => [a, b] :: chunk2 rest

/-- Space-separated join of character chunks, modelling
`" ".join(chunks)`. -/
def joinSpaces : List (List Char) → List Char
  | [] => []
  | [x] => x
  | x :: xs => x ++ ' ' :: joinSpaces xs

/-- Model of `phone_formats.get_digit_limit`: dictionary lookup with
default 15. -/
def get_digit_limit (country_code : Nat) : Nat :=
  match LOCAL_DIGIT_LIMITS_BY_CODE.lookup country_code with
  | some v => v
  | none => 15

/-- Model of `phone_formats.validate_digit_input`: `False` when the
string fails `str.isdigit` (in particular for the empty string), else a
length check against the country limit. -/
def validate_digit_input (current_digits : List Char) (country_code : Nat) : Bool :=
  if !pyStrIsDigit current_digits then false
  else decide (current_digits.length ≤ get_digit_limit country_code)

/-- Model of `phone_formats.format_display_number`: country-specific
grouping rules with a generic fallback.  Each Python slice
`digits[a:b]` is rendered as `(digits.drop a).take (b - a)`. -/
def format_display_number (digits : List Char) (country_code : Nat) : List Char :=
  if digits.isEmpty then []
  else if country_code = 1 ∧ digits.length = 10 then
    '(' :: digits.take 3 ++ ')' :: ' ' :: (digits.drop 3).take 3 ++ '-' :: digits.drop 6
  else if country_code = 44 ∧ digits.length = 10 then
    digits.take 4 ++ ' ' :: digits.drop 4
  else if country_code = 44 ∧ digits.length = 11 then
    digits.take 5 ++ ' ' :: digits.drop 5
  else if country_code = 33 ∧ 9 ≤ digits.length then
    if digits.length = 10 then
      digits.take 1 ++ ' ' :: (digits.drop 1).take 2 ++ ' ' :: (digits.drop 3).take 2
        ++ ' ' :: (digits.drop 5).take 2 ++ ' ' :: (digits.drop 7).take 2
    else
      joinSpaces (chunk2 digits)
  else if country_code = 49 ∧ 10 ≤ digits.length then
    digits.take 4 ++ ' ' :: digits.drop 4
  else if country_code = 81 ∧ digits.length = 10 then
    digits.take 2 ++ '-' :: (digits.drop 2).take 4 ++ '-' :: digits.drop 6
  else if country_code = 82 ∧ 9 ≤ digits.length then
    digits.take 2 ++ '-' :: (digits.drop 2).take 3 ++ '-' :: digits.drop 5
  else if country_code = 86 ∧ digits.length = 11 then
    digits.take 3 ++ ' ' :: (digits.drop 3).take 4 ++ ' ' :: digits.drop 7
  else if country_code = 91 ∧ digits.length = 10 then
    digits.take 5 ++ ' ' :: digits.drop 5
  else if country_code = 61 ∧ digits.length = 9 then
    digits.take 1 ++ ' ' :: (digits.drop 1).take 4 ++ ' ' :: digits.drop 5
  else if country_code = 55 ∧ (digits.length = 10 ∨ digits.length = 11) then
    if digits.length = 11 then
      '(' :: digits.take 2 ++ ')' :: ' ' :: (digits.drop 2).take 5 ++ '-' :: digits.drop 7
    else
      '(' :: digits.take 2 ++ ')' :: ' ' :: (digits.drop 2).take 4 ++ '-' :: digits.drop 6
  else if digits.length ≤ 6 then
    digits
  else if digits.length ≤ 10 then
    digits.take 3 ++ ' ' :: (digits.drop 3).take 3 ++ ' ' :: digits.drop 6
  else
    digits.take 3 ++ ' ' :: (digits.drop 3).take 3 ++ ' ' :: (digits.drop 6).take 4
      ++ ' ' :: digits.drop 10
/-- Model of `equation_bank.eq_plus`. -/
def eq_plus : String := "\\mathbf\x7b+\x7d"

/-- Model of `equation_bank.eq_placeholder`: a tagged placeholder
expression embedding the literal character. -/
def eq_placeholder (digit_char : Char) : String :=
  "\\mathbf\x7b\\textit\x7b(" ++ digit_char.toString ++ ")\x7d\x7d"

/-- Model of `latex_processor.MAX_UNIQUE_ATTEMPTS`. -/
def MAX_UNIQUE_ATTEMPTS : Nat := 15

/-- The template provider associated to a digit character, modelling the
`hasattr`/`getattr` dynamic lookup of `_get_{digit_char}_templates` in
`_get_unique_latex_for_digit` (`none` when no such provider exists). -/
def digit_template_provider (c : Char) : Option (RandSrc → List String × RandSrc) :=
  if c = '0' then some get_0_templates
  else if c = '1' then some get_1_templates
  else if c = '2' then some get_2_templates
  else if c = '3' then some get_3_templates
  else if c = '4' then some get_4_templates
  else if c = '5' then some get_5_templates
  else if c = '6' then some get_6_templates
  else if c = '7' then some get_7_templates
  else if c = '8' then some get_8_templates
  else if c = '9' then some get_9_templates
  else none

/-- The retry loop of `_get_unique_latex_for_digit`: with fuel `n + 1`,
draw a template (re-evaluating the provider, as the Python loop body
does); if it is already used, retry with fuel `n`; otherwise insert it
into the used set and return it marked fresh (`true`).  With fuel `0`
(all `MAX_UNIQUE_ATTEMPTS` attempts exhausted), perform the final
unconditional draw of the Python `return random.choice(get_templates())`
fallback, leaving the used set unchanged and marking the result not
fresh (`false`).  The freshness flag is pure instrumentation recording
which branch returned; it does not influence the computation. -/
def pickLoop (getT : RandSrc → List String × RandSrc) (used : List String) :
    Nat → RandSrc → (String × Bool) × List String × RandSrc
  | 0, s =>
    let r := getT s
    let c := choice r.1 r.2
    ((c.1, false), used, c.2)
  | fuel + 1, s =>
    let r := getT s
    let c := choice r.1 r.2
    if c.1 ∈ used then pickLoop getT used fuel c.2
    else ((c.1, true), c.1 :: used, c.2)

/-- Model of `latex_processor._get_unique_latex_for_digit`: placeholder
for non-digits and for digits without a template provider, otherwise the
bounded retry loop with `MAX_UNIQUE_ATTEMPTS` attempts. -/
def get_unique_latex_for_digit (digit_char : Char) (used_formulas : List String)
    (s : RandSrc) : (String × Bool) × List String × RandSrc :=
  if !isAsciiDigit digit_char then ((eq_placeholder digit_char, false), used_formulas, s)
  else
    match digit_template_provider digit_char with
    | none => ((eq_placeholder digit_char, false), used_formulas, s)
    | some getT => pickLoop getT used_formulas MAX_UNIQUE_ATTEMPTS s

/-- A token of the composed document: a digit expression (with its
underlying digit value and the freshness instrumentation flag from
`get_unique_latex_for_digit`), the plus-sign expression, or a literal
separator / grouping snippet. -/
inductive Tok where
  | digit (value : Char) (expr : String) (fresh : Bool)
  | plus (expr : String)
  | sep (expr : String)
deriving DecidableEq

/-- The LaTeX string a token contributes to `latex_parts`. -/
def Tok.render : Tok → String
  | .digit _ e _ => e
  | .plus e => e
  | .sep e => e

/-- Emission of one digit token per character, threading the used set
and the random source left to right, modelling the successive
`_get_unique_latex_for_digit` calls of a `for` loop or list
comprehension over a digit group. -/
def pickDigits : List Char → List String → RandSrc → List Tok × List String × RandSrc
  | [], used, s => ([], used, s)
  | c :: cs, used, s =>
    let r1 := get_unique_latex_for_digit c used s
    let r2 := pickDigits cs r1.2.1 r1.2.2
    (Tok.digit c r1.1.1 r1.1.2 :: r2.1, r2.2.1, r2.2.2)

/-- The country-code segmentation of `generate_latex_for_number` (lines
240-244 of `latex_processor.py`): the pair (country_code, main_number)
computed from the presence of a leading plus and the clean digit
sequence. -/
def split_country_code (has_plus : Bool) (clean_number : List Char) :
    List Char × List Char :=
  if has_plus ∧ clean_number.length = 11 ∧ clean_number.head? = some '1' then
    (['1'], clean_number.drop 1)
  else if has_plus ∧ clean_number.length > 10 then
    (clean_number.take (clean_number.length - 10),
     clean_number.drop (clean_number.length - 10))
  else
    ([], clean_number)

/-- The separator snippets appended to `latex_parts`. -/
def sepQuad : String := "\\quad"

/-- The minor-gap separator after the grouped area code. -/
def sepThin : String := "\\;"

/-- The dash separator between exchange and line groups. -/
def sepDash : String := "\\text\x7b---\x7d"

/-- The opening bracket of the grouped area code. -/
def sepOpen : String := "\\boldsymbol\x7b(\x7d"

/-- The closing bracket of the grouped area code. -/
def sepClose : String := "\\boldsymbol\x7b)\x7d"

/-- The token-emission phase of `generate_latex_for_number` (lines
246-266 of `latex_processor.py`), after validation and country-code
segmentation: the plus token, the country-code digit tokens with the
major-gap separator, and either the 3-3-4 grouped ten-digit subscriber
emission with its bracket / minor-gap / dash separators, or the plain
per-digit emission.  The used-formula set starts empty and is threaded
left to right, exactly as the Python code mutates its
`used_formulas` set. -/
def compose_tokens (has_plus : Bool) (clean_number : List Char) (s : RandSrc) :
    List Tok × List String × RandSrc :=
  let cm := split_country_code has_plus clean_number
  let country_code := cm.1
  let main_number := cm.2
  let head0 : List Tok := if has_plus then [Tok.plus eq_plus] else []
  let rcc := pickDigits country_code [] s
  let head1 : List Tok :=
    if country_code.isEmpty then head0
    else head0 ++ rcc.1 ++ [Tok.sep sepQuad]
  if main_number.length = 10 then
    let area := main_number.take 3
    let exch := (main_number.drop 3).take 3
    let line := main_number.drop 6
    let ra := pickDigits area rcc.2.1 rcc.2.2
    let re := pickDigits exch ra.2.1 ra.2.2
    let rl := pickDigits line re.2.1 re.2.2
    (head1 ++ Tok.sep sepOpen :: ra.1 ++ Tok.sep sepClose :: Tok.sep sepThin :: re.1
      ++ Tok.sep sepDash :: rl.1, rl.2.1, rl.2.2)
  else
    let rm := pickDigits main_number rcc.2.1 rcc.2.2
    (head1 ++ rm.1, rm.2.1, rm.2.2)

/-- The composition phase of `latex_processor.generate_latex_for_number`
(lines 230-266): the two validation checks, then the emission of the
`latex_parts` token stream (`compose_tokens`) with a fresh used-formula
set.  Errors model the two `ValueError` raises.  The later stages of
the Python function (line wrapping, document assembly, file output,
external rendering) consume this stream; line wrapping is modelled
separately by `format_equation_with_line_breaks`. -/
def generate_latex_for_number (full_number_str : List Char) (s : RandSrc) :
    Except String (List Tok × List String × RandSrc) :=
  if (pyStrip full_number_str).isEmpty then
    .error "Phone number cannot be empty"
  else
    let clean_number := full_number_str.filter isAsciiDigit
    let has_plus := (pyStrip full_number_str).head? = some '+'
    if clean_number.isEmpty then
      .error "Phone number must contain at least one digit"
    else
      .ok (compose_tokens has_plus clean_number s)

/-- The maximum number of columns per wrapped line
(`MAX_LINE_LENGTH` in `format_equation_with_line_breaks`). -/
def MAX_LINE_LENGTH : Nat := 3

/-- The area-code gathering step of `format_equation_with_line_breaks`:
after an opening bracket part, gather up to three following parts and,
when the next part is the closing bracket, absorb it (with the trailing
space the Python code appends); returns the joined single column and the
remaining parts. -/
def groupBlock (rest : List String) : String × List String :=
  let ds := rest.take 3
  let rest1 := rest.drop 3
  match rest1 with
  | c :: rest2 =>
    if c = sepClose then
      (String.intercalate " " (sepOpen :: ds ++ [sepClose ++ " "]), rest2)
    else
      (String.intercalate " " (sepOpen :: ds), rest1)
  | [] => (String.intercalate " " (sepOpen :: ds), [])

/-- The manual index-stepping loop of
`format_equation_with_line_breaks`, as a recursion over the remaining
parts, carrying the current line (as its list of columns) and the
accumulated full lines: an opening-bracket part triggers the atomic
`groupBlock` gathering into a single column, any other part is one
column; a line is flushed as soon as it holds `MAX_LINE_LENGTH`
columns, and a nonempty final line is flushed at the end.  The first
argument is a structural bound on the number of loop iterations: the
Python `while` loop advances its index by at least one per iteration,
so `parts.length` iterations always suffice and the bound case with
remaining parts is never reached from `wrapLines`. -/
def wrapLinesGo : Nat → List String → List String → List (List String) → List (List String)
  | _, [], current, lines => if current.isEmpty then lines else lines ++ [current]
  | 0, _ :: _, current, lines => if current.isEmpty then lines else lines ++ [current]
  | fuel + 1, p :: rest, current, lines =>
    if p = sepOpen then
      if MAX_LINE_LENGTH ≤ (current ++ [(groupBlock rest).1]).length then
        wrapLinesGo fuel (groupBlock rest).2 [] (lines ++ [current ++ [(groupBlock rest).1]])
      else
        wrapLinesGo fuel (groupBlock rest).2 (current ++ [(groupBlock rest).1]) lines
    else
      if MAX_LINE_LENGTH ≤ (current ++ [p]).length then
        wrapLinesGo fuel rest [] (lines ++ [current ++ [p]])
      else
        wrapLinesGo fuel rest (current ++ [p]) lines

/-- The wrapped lines, each as its list of columns. -/
def wrapLines (latex_parts : List String) : List (List String) :=
  wrapLinesGo latex_parts.length latex_parts [] []

/-- Model of `latex_processor.format_equation_with_line_breaks`: wrap
the parts into lines and join them for the `align*` environment (the
Python code joins each line's columns with spaces at flush time; joining
them at the end is the same string). -/
def format_equation_with_line_breaks (latex_parts : List String) : String :=
  String.intercalate " \\\\\n"
    ((wrapLines latex_parts).map (fun l => "& " ++ String.intercalate " " l))

/-- The underlying digit values of the digit tokens of a stream, in
emission order. -/
def tokDigits : List Tok → List Char
  | [] => []
  | Tok.digit v _ _ :: ts => v :: tokDigits ts
  | _ :: ts => tokDigits ts

/-- The expressions of the digit tokens carrying a given digit value. -/
def digitExprs (c : Char) (ts : List Tok) : List String :=
  ts.filterMap fun t =>
    match t with
    | Tok.digit v e _ => if v = c then some e else none
    | _ => none

/-- The expressions of the digit tokens returned along the fresh
(uniqueness-checked) path. -/
def freshExprs (ts : List Tok) : List String :=
  ts.filterMap fun t =>
    match t with
    | Tok.digit _ e true => some e
    | _ => none

/-- The token stream of a successful composition (empty on error). -/
def tokensOf (full_number_str : List Char) (s : RandSrc) : List Tok :=
  match generate_latex_for_number full_number_str s with
  | .ok r => r.1
  | .error _ => []

/-- A concrete fully determined random source used for witnesses and
counterexamples: every raw value is zero, so every `randint` returns its
lower bound and every `choice` returns the first list element. -/
def zeroSrc : RandSrc := fun _ => 0

/-- The digit tokens of a stream, in order (separators and the plus
token removed). -/
def digitToks (ts : List Tok) : List Tok :=
  ts.filter fun t =>
    match t with
    | Tok.digit _ _ _ => true
    | _ => false

/-- The successive values drawn by the attempt loop of
`_get_unique_latex_for_digit` with the given fuel: an observer used to
state which values the loop would draw, for the exhaustion analysis. -/
def attemptDraws (getT : RandSrc → List String × RandSrc) : Nat → RandSrc → List String
  | 0, _ => []
  | fuel + 1, s =>
    (choice (getT s).1 (getT s).2).1
      :: attemptDraws getT fuel (choice (getT s).1 (getT s).2).2

/-- The country-code segmentation rule as the specification words it:
with a leading plus and exactly 11 digits starting with 1, the country
code is 1 and the subscriber number is the tail; with a leading plus
and more than 10 digits, the last 10 digits are the subscriber number
and everything before them is the country code; otherwise no country
code is extracted.  Stated with `head?`/`tail`/`rdrop`/`rtake` to
mirror the specification's wording, for comparison with the code's
`split_country_code`. -/
def split_country_code_spec (has_plus : Bool) (clean : List Char) :
    List Char × List Char :=
  if has_plus ∧ clean.length = 11 ∧ clean.head? = some '1' then
    (['1'], clean.tail)
  else if has_plus ∧ 10 < clean.length then
    (clean.rdrop 10, clean.rtake 10)
  else
    ([], clean)
theorem mem_of_lookup_eq_some {l : List (Nat × Nat)} {c v : Nat}
    (h : l.lookup c = some v) : (c, v) ∈ l := by
  induction l with
  | nil => simp [List.lookup] at h
  | cons p t ih =>
    obtain ⟨k, b⟩ := p
    simp only [List.lookup] at h
    split at h
    next heq =>
      cases h
      have hck : c = k := by simpa using heq
      subst hck
      exact List.mem_cons_self _ _
    next => exact List.mem_cons_of_mem _ (ih h)

/-- C8: for every calling code present in the registry table,
`get_digit_limit` returns that code's configured value, which is a
positive integer; for every calling code not in the table it returns
exactly 15.  (Totality is by construction: the function is a lookup
with a default and cannot fail.) -/
theorem C8_digit_limit_total_and_default :
    (∀ c v, LOCAL_DIGIT_LIMITS_BY_CODE.lookup c = some v →
        get_digit_limit c = v ∧ 0 < v) ∧
    (∀ c, LOCAL_DIGIT_LIMITS_BY_CODE.lookup c = none → get_digit_limit c = 15) := by
  constructor
  · intro c v h
    refine ⟨by simp [get_digit_limit, h], ?_⟩
    have hall : ∀ p ∈ LOCAL_DIGIT_LIMITS_BY_CODE, 0 < p.2 := by
      set_option maxRecDepth 4000 in decide
    exact hall _ (mem_of_lookup_eq_some h)
  · intro c h
    simp [get_digit_limit, h]

/-- Witness for C8 at the concrete codes 1 (in the table, limit 10) and
2 (not in the table, default 15). -/
theorem C8_digit_limit_total_and_default_witness :
    (get_digit_limit 1 = 10 ∧ 0 < 10) ∧ get_digit_limit 2 = 15 :=
  ⟨C8_digit_limit_total_and_default.1 1 10 (by decide),
   C8_digit_limit_total_and_default.2 2 (by decide)⟩

theorem pyStrIsDigit_iff (s : List Char) :
    pyStrIsDigit s = true ↔ s ≠ [] ∧ ∀ c ∈ s, isAsciiDigit c := by
  simp [pyStrIsDigit, List.all_eq_true, List.isEmpty_iff]

/-- C2 counterexample: the empty string contains no non-digit character
and its length is within the limit of calling code 1, yet
`validate_digit_input` returns `false` on it (Python's `"".isdigit()`
is `False`), where the claim says `true`. -/
theorem C2_validate_empty_counterexample :
    validate_digit_input [] 1 = false ∧
    (∀ c ∈ ([] : List Char), isAsciiDigit c) ∧
    ([] : List Char).length ≤ get_digit_limit 1 := by
  refine ⟨rfl, by simp, by decide⟩

/-- C2 amended: `validate_digit_input s code` is `true` iff `s` is
nonempty, consists of digits only, and its length is at most the
code's digit limit — so it is `false` for the empty string, for any
string containing a non-digit character, and for any over-long string,
and `true` in every other case. -/
theorem C2_validate_characterization (s : List Char) (code : Nat) :
    validate_digit_input s code = true ↔
      s ≠ [] ∧ (∀ c ∈ s, isAsciiDigit c) ∧ s.length ≤ get_digit_limit code := by
  unfold validate_digit_input
  by_cases h1 : pyStrIsDigit s
  · rw [pyStrIsDigit_iff] at h1
    simp [pyStrIsDigit_iff, h1]
  · have h1' : pyStrIsDigit s = false := by
      cases hb : pyStrIsDigit s
      · rfl
      · exact absurd hb h1
    rw [pyStrIsDigit_iff] at h1
    simp only [h1', Bool.not_false, if_true]
    constructor
    · intro h
      cases h
    · intro h
      exact absurd ⟨h.1, h.2.1⟩ h1

/-- C1: the round-trip property fails in the code: for calling code 33
(France) and the 10-digit input `"0123456789"` (within the configured
limit of 10 local digits), `format_display_number` renders only the
first nine digits — the branch building `X XX XX XX XX` stops at
`digits[7:9]` and drops `digits[9]` — so stripping non-digits from the
result yields `"012345678"`, not the original string. -/
theorem C1_format_display_round_trip_failure :
    ("0123456789".toList.length ≤ get_digit_limit 33) ∧
    (∀ c ∈ "0123456789".toList, isAsciiDigit c) ∧
    (format_display_number "0123456789".toList 33).filter isAsciiDigit
      = "012345678".toList ∧
    "012345678".toList ≠ "0123456789".toList := by
  refine ⟨by decide, by decide, by decide, by decide⟩
/-- C5: the composer's country-code segmentation follows the claimed
three-case rule, and on the clean digit sequence of the input
`"+15551234567"` it yields country code `"1"` and subscriber
`"5551234567"`; accordingly the composed token stream for that input
carries the digits `1 5 5 5 1 2 3 4 5 6 7` in order. -/
theorem C5_country_code_segmentation :
    (∀ has_plus clean,
        split_country_code has_plus clean = split_country_code_spec has_plus clean) ∧
    split_country_code true ("+15551234567".toList.filter isAsciiDigit)
      = ("1".toList, "5551234567".toList) ∧
    tokDigits (tokensOf "+15551234567".toList zeroSrc) = "15551234567".toList := by
  refine ⟨?_, by decide, by decide⟩
  intro has_plus clean
  simp [split_country_code, split_country_code_spec, List.rdrop, List.rtake,
    List.drop_one]

theorem isPySpace_not_digit {c : Char} (h : isPySpace c = true) :
    isAsciiDigit c = false := by
  simp only [isPySpace, Bool.or_eq_true, decide_eq_true_eq] at h
  rcases h with ((((h | h) | h) | h) | h) | h <;> subst h <;> decide

theorem filter_digits_of_pyStrip_nil {l : List Char} (h : pyStrip l = []) :
    l.filter isAsciiDigit = [] := by
  have h1 : ((l.dropWhile isPySpace).reverse.dropWhile isPySpace) = [] := by
    have := congrArg List.reverse h
    simpa [pyStrip] using this
  have h2 : ∀ x ∈ (l.dropWhile isPySpace).reverse, isPySpace x := by
    exact List.dropWhile_eq_nil_iff.mp h1
  have h3 : ∀ x ∈ l.dropWhile isPySpace, isPySpace x := by
    intro x hx
    exact h2 x (List.mem_reverse.mpr hx)
  have h4 : ∀ x ∈ l, isPySpace x := by
    intro x hx
    have hx2 : x ∈ l.takeWhile isPySpace ++ l.dropWhile isPySpace := by
      rw [List.takeWhile_append_dropWhile]
      exact hx
    rcases List.mem_append.mp hx2 with hx' | hx'
    · exact List.mem_takeWhile_imp hx'
    · exact h3 x hx'
  rw [List.filter_eq_nil_iff]
  intro a ha
  simp [isPySpace_not_digit (h4 a ha)]

/-- C6: the composition phase raises a validation error exactly when
the input contains zero digits (in particular on the empty and the
whitespace-only string); whenever at least one digit is present it
returns a token stream, so no later degradation can make it fail. -/
theorem C6_empty_input_error_iff (input : List Char) (s : RandSrc) :
    (∃ msg, generate_latex_for_number input s = .error msg) ↔
      input.filter isAsciiDigit = [] := by
  unfold generate_latex_for_number
  by_cases h1 : (pyStrip input).isEmpty
  · simp only [h1, if_true]
    constructor
    · intro _
      exact filter_digits_of_pyStrip_nil (List.isEmpty_iff.mp h1)
    · intro _
      exact ⟨_, rfl⟩
  · simp only [h1, if_false, Bool.false_eq_true]
    by_cases h2 : (input.filter isAsciiDigit).isEmpty
    · simp only [h2, if_true]
      exact ⟨fun _ => List.isEmpty_iff.mp h2, fun _ => ⟨_, rfl⟩⟩
    · simp only [h2, if_false, Bool.false_eq_true]
      constructor
      · intro hmsg
        obtain ⟨msg, hm⟩ := hmsg
        cases hm
      · intro hnil
        exact absurd (List.isEmpty_iff.mpr hnil) (by simp [h2])
theorem freshExprs_nil : freshExprs [] = [] := rfl

theorem freshExprs_cons_digit_true (c : Char) (x : String) (ts : List Tok) :
    freshExprs (Tok.digit c x true :: ts) = x :: freshExprs ts := rfl

theorem freshExprs_cons_digit_false (c : Char) (x : String) (ts : List Tok) :
    freshExprs (Tok.digit c x false :: ts) = freshExprs ts := rfl

theorem freshExprs_cons_plus (e : String) (ts : List Tok) :
    freshExprs (Tok.plus e :: ts) = freshExprs ts := rfl

theorem freshExprs_cons_sep (e : String) (ts : List Tok) :
    freshExprs (Tok.sep e :: ts) = freshExprs ts := rfl

theorem tokDigits_cons_digit (c : Char) (x : String) (f : Bool) (ts : List Tok) :
    tokDigits (Tok.digit c x f :: ts) = c :: tokDigits ts := rfl

theorem tokDigits_cons_plus (e : String) (ts : List Tok) :
    tokDigits (Tok.plus e :: ts) = tokDigits ts := rfl

theorem tokDigits_cons_sep (e : String) (ts : List Tok) :
    tokDigits (Tok.sep e :: ts) = tokDigits ts := rfl

theorem digitToks_cons_digit (c : Char) (x : String) (f : Bool) (ts : List Tok) :
    digitToks (Tok.digit c x f :: ts) = Tok.digit c x f :: digitToks ts := rfl

theorem digitToks_cons_plus (e : String) (ts : List Tok) :
    digitToks (Tok.plus e :: ts) = digitToks ts := rfl

theorem digitToks_cons_sep (e : String) (ts : List Tok) :
    digitToks (Tok.sep e :: ts) = digitToks ts := rfl

theorem digitToks_nil : digitToks [] = [] := rfl

theorem digitToks_append (a b : List Tok) :
    digitToks (a ++ b) = digitToks a ++ digitToks b := by
  simp [digitToks]

theorem tokDigits_digitToks (ts : List Tok) :
    tokDigits (digitToks ts) = tokDigits ts := by
  induction ts with
  | nil => rfl
  | cons t ts ih =>
    cases t <;>
      simp only [digitToks_cons_digit, digitToks_cons_plus, digitToks_cons_sep,
        tokDigits_cons_digit, tokDigits_cons_plus, tokDigits_cons_sep, ih]

theorem freshExprs_digitToks (ts : List Tok) :
    freshExprs (digitToks ts) = freshExprs ts := by
  induction ts with
  | nil => rfl
  | cons t ts ih =>
    rcases t with ⟨c, x, f⟩ | e | e
    · cases f <;>
        simp only [digitToks_cons_digit, freshExprs_cons_digit_true,
          freshExprs_cons_digit_false, ih]
    · simp only [digitToks_cons_plus, freshExprs_cons_plus, ih]
    · simp only [digitToks_cons_sep, freshExprs_cons_sep, ih]

theorem pickLoop_cases (getT : RandSrc → List String × RandSrc) (used : List String) :
    ∀ (fuel : Nat) (s : RandSrc),
      (∃ x s', pickLoop getT used fuel s = ((x, true), x :: used, s') ∧ x ∉ used) ∨
      (∃ x s', pickLoop getT used fuel s = ((x, false), used, s')) := by
  intro fuel
  induction fuel with
  | zero => intro s; exact .inr ⟨_, _, rfl⟩
  | succ n ih =>
    intro s
    by_cases h : (choice (getT s).1 (getT s).2).1 ∈ used
    · have hstep : pickLoop getT used (n + 1) s
          = pickLoop getT used n (choice (getT s).1 (getT s).2).2 := by
        simp [pickLoop, h]
      rw [hstep]
      exact ih _
    · exact .inl ⟨(choice (getT s).1 (getT s).2).1, (choice (getT s).1 (getT s).2).2,
        by simp [pickLoop, h], h⟩

theorem get_unique_cases (c : Char) (used : List String) (s : RandSrc) :
    (∃ x s', get_unique_latex_for_digit c used s = ((x, true), x :: used, s') ∧ x ∉ used) ∨
    (∃ x s', get_unique_latex_for_digit c used s = ((x, false), used, s')) := by
  unfold get_unique_latex_for_digit
  by_cases hd : isAsciiDigit c
  · simp only [hd, Bool.not_true, Bool.false_eq_true, if_false]
    cases hp : digit_template_provider c with
    | none => exact .inr ⟨_, _, rfl⟩
    | some getT => exact pickLoop_cases getT used MAX_UNIQUE_ATTEMPTS s
  · have hd' : isAsciiDigit c = false := by
      cases hb : isAsciiDigit c
      · rfl
      · exact absurd hb hd
    simp only [hd', Bool.not_false, if_true]
    exact .inr ⟨_, _, rfl⟩

theorem pickDigits_invariant (ds : List Char) : ∀ (used : List String) (s : RandSrc),
    used ⊆ (pickDigits ds used s).2.1 ∧
    (∀ e ∈ freshExprs (pickDigits ds used s).1,
        e ∈ (pickDigits ds used s).2.1 ∧ e ∉ used) ∧
    (freshExprs (pickDigits ds used s).1).Nodup := by
  induction ds with
  | nil =>
    intro used s
    exact ⟨List.Subset.refl _, by simp [pickDigits, freshExprs_nil], by
      simp [pickDigits, freshExprs_nil]⟩
  | cons c cs ih =>
    intro used s
    rcases get_unique_cases c used s with ⟨x, s', h, hx⟩ | ⟨x, s', h⟩
    · have hps1 : (pickDigits (c :: cs) used s).1
          = Tok.digit c x true :: (pickDigits cs (x :: used) s').1 := by
        simp [pickDigits, h]
      have hps2 : (pickDigits (c :: cs) used s).2 = (pickDigits cs (x :: used) s').2 := by
        simp [pickDigits, h]
      obtain ⟨ih1, ih2, ih3⟩ := ih (x :: used) s'
      rw [hps1, hps2]
      refine ⟨?_, ?_, ?_⟩
      · intro y hy
        exact ih1 (List.mem_cons_of_mem _ hy)
      · intro e he
        rw [freshExprs_cons_digit_true] at he
        rcases List.mem_cons.mp he with rfl | he'
        · exact ⟨ih1 (List.mem_cons_self _ _), hx⟩
        · obtain ⟨h1, h2⟩ := ih2 e he'
          exact ⟨h1, fun hc => h2 (List.mem_cons_of_mem _ hc)⟩
      · rw [freshExprs_cons_digit_true]
        refine List.nodup_cons.mpr ⟨?_, ih3⟩
        intro hc
        exact (ih2 x hc).2 (List.mem_cons_self _ _)
    · have hps1 : (pickDigits (c :: cs) used s).1
          = Tok.digit c x false :: (pickDigits cs used s').1 := by
        simp [pickDigits, h]
      have hps2 : (pickDigits (c :: cs) used s).2 = (pickDigits cs used s').2 := by
        simp [pickDigits, h]
      obtain ⟨ih1, ih2, ih3⟩ := ih used s'
      rw [hps1, hps2]
      refine ⟨ih1, ?_, ?_⟩
      · rw [freshExprs_cons_digit_false]
        exact ih2
      · rw [freshExprs_cons_digit_false]
        exact ih3

theorem tokDigits_pickDigits (ds : List Char) : ∀ (used : List String) (s : RandSrc),
    tokDigits (pickDigits ds used s).1 = ds := by
  induction ds with
  | nil => intro used s; rfl
  | cons c cs ih =>
    intro used s
    simp [pickDigits, tokDigits_cons_digit, ih]

theorem digitToks_pickDigits (ds : List Char) : ∀ (used : List String) (s : RandSrc),
    digitToks (pickDigits ds used s).1 = (pickDigits ds used s).1 := by
  induction ds with
  | nil => intro used s; rfl
  | cons c cs ih =>
    intro used s
    simp only [pickDigits]
    rw [digitToks_cons_digit, ih]

theorem pickDigits_append (xs ys : List Char) : ∀ (used : List String) (s : RandSrc),
    pickDigits (xs ++ ys) used s
      = ((pickDigits xs used s).1
          ++ (pickDigits ys (pickDigits xs used s).2.1 (pickDigits xs used s).2.2).1,
         (pickDigits ys (pickDigits xs used s).2.1 (pickDigits xs used s).2.2).2) := by
  induction xs with
  | nil => intro used s; rfl
  | cons c cs ih =>
    intro used s
    simp only [List.cons_append, pickDigits]
    rw [show cs.append ys = cs ++ ys from rfl, ih]

theorem split_country_code_append (hp : Bool) (clean : List Char) :
    (split_country_code hp clean).1 ++ (split_country_code hp clean).2 = clean := by
  unfold split_country_code
  split
  · next h =>
    obtain ⟨-, -, hh⟩ := h
    cases clean with
    | nil => cases hh
    | cons a t =>
      simp only [List.head?_cons, Option.some.injEq] at hh
      subst hh
      simp
  · split
    · simp [List.take_append_drop]
    · simp

theorem main_number_decomp (mn : List Char) :
    mn.take 3 ++ ((mn.drop 3).take 3 ++ mn.drop 6) = mn := by
  have h1 : mn.drop 6 = (mn.drop 3).drop 3 := by
    rw [List.drop_drop]
  rw [h1, List.take_append_drop, List.take_append_drop]

theorem compose_tokens_digitToks (hp : Bool) (clean : List Char) (s : RandSrc) :
    digitToks (compose_tokens hp clean s).1 = (pickDigits clean [] s).1 := by
  have hsplit := split_country_code_append hp clean
  simp only [compose_tokens]
  by_cases hmn : (split_country_code hp clean).2.length = 10
  · simp only [hmn, if_true]
    by_cases hcc : (split_country_code hp clean).1.isEmpty
    · have hccnil : (split_country_code hp clean).1 = [] := List.isEmpty_iff.mp hcc
      rw [hccnil] at hsplit
      simp only [hcc, if_true, List.nil_append] at hsplit ⊢
      rw [hccnil]
      conv_rhs => rw [← hsplit, ← main_number_decomp (split_country_code hp clean).2]
      rw [pickDigits_append, pickDigits_append]
      cases hp <;>
        simp [digitToks_append, digitToks_cons_sep, digitToks_cons_plus, digitToks_nil,
          digitToks_pickDigits, pickDigits]
    · have hcc' : (split_country_code hp clean).1.isEmpty = false := by
        cases hb : (split_country_code hp clean).1.isEmpty
        · rfl
        · exact absurd hb hcc
      simp only [hcc', Bool.false_eq_true, if_false]
      conv_rhs => rw [← hsplit, ← main_number_decomp (split_country_code hp clean).2]
      rw [pickDigits_append, pickDigits_append, pickDigits_append]
      cases hp <;>
        simp [digitToks_append, digitToks_cons_sep, digitToks_cons_plus, digitToks_nil,
          digitToks_pickDigits]
  · simp only [hmn, if_false]
    by_cases hcc : (split_country_code hp clean).1.isEmpty
    · have hccnil : (split_country_code hp clean).1 = [] := List.isEmpty_iff.mp hcc
      rw [hccnil] at hsplit
      simp only [hcc, if_true, List.nil_append] at hsplit ⊢
      rw [hccnil]
      conv_rhs => rw [← hsplit]
      cases hp <;>
        simp [digitToks_append, digitToks_cons_sep, digitToks_cons_plus, digitToks_nil,
          digitToks_pickDigits, pickDigits]
    · have hcc' : (split_country_code hp clean).1.isEmpty = false := by
        cases hb : (split_country_code hp clean).1.isEmpty
        · rfl
        · exact absurd hb hcc
      simp only [hcc', Bool.false_eq_true, if_false]
      conv_rhs => rw [← hsplit]
      rw [pickDigits_append]
      cases hp <;>
        simp [digitToks_append, digitToks_cons_sep, digitToks_cons_plus, digitToks_nil,
          digitToks_pickDigits]

theorem compose_tokens_tokDigits (hp : Bool) (clean : List Char) (s : RandSrc) :
    tokDigits (compose_tokens hp clean s).1 = clean := by
  rw [← tokDigits_digitToks, compose_tokens_digitToks, tokDigits_pickDigits]

theorem compose_tokens_freshExprs (hp : Bool) (clean : List Char) (s : RandSrc) :
    freshExprs (compose_tokens hp clean s).1 = freshExprs (pickDigits clean [] s).1 := by
  rw [← freshExprs_digitToks, compose_tokens_digitToks]
theorem bool_eq_false {b : Bool} (h : ¬ b = true) : b = false := by
  cases b
  · rfl
  · exact absurd rfl h

/-- C3: for every input and every outcome of the random draws, the
digit values of the emitted digit tokens, in emission order, are
exactly the cleaned digit sequence of the input (country-code digits
first, then subscriber digits, since the segmentation concatenates
back to the clean sequence). -/
theorem C3_composer_digit_fidelity (input : List Char) (s : RandSrc) :
    tokDigits (tokensOf input s) = input.filter isAsciiDigit := by
  unfold tokensOf generate_latex_for_number
  by_cases h1 : (pyStrip input).isEmpty
  · simp only [h1, if_true]
    rw [filter_digits_of_pyStrip_nil (List.isEmpty_iff.mp h1)]
    rfl
  · simp only [bool_eq_false h1, Bool.false_eq_true, if_false]
    by_cases h2 : (input.filter isAsciiDigit).isEmpty
    · simp only [h2, if_true]
      rw [List.isEmpty_iff.mp h2]
      rfl
    · simp only [bool_eq_false h2, Bool.false_eq_true, if_false]
      exact compose_tokens_tokDigits _ _ _

/-- C4 counterexample: for the input `"33"` the digit 3 occurs twice,
its template collection has at least 2 elements (so N = 2 satisfies the
claim's hypotheses), yet under the all-zero random source every retry
of the second occurrence draws the already-used first template and the
exhaustion fallback returns it again, so the two expressions emitted
for digit 3 are identical. -/
theorem C4_uniqueness_counterexample :
    2 ≤ (get_3_templates zeroSrc).1.length ∧
    (['3', '3'].filter isAsciiDigit).count '3' = 2 ∧
    (digitExprs '3' (tokensOf ['3', '3'] zeroSrc)).length = 2 ∧
    ¬ (digitExprs '3' (tokensOf ['3', '3'] zeroSrc)).Nodup := by
  decide

/-- C4 amended: within one composition call, all expressions returned
along the uniqueness-checked path (those inserted into the used-formula
set) are pairwise distinct — in particular no digit receives the same
expression twice through that path, for any input and any random
outcome; identical expressions can only be produced by the
`MAX_UNIQUE_ATTEMPTS`-exhaustion fallback, which bypasses the check. -/
theorem C4_fresh_path_uniqueness (input : List Char) (s : RandSrc) :
    (freshExprs (tokensOf input s)).Nodup := by
  unfold tokensOf generate_latex_for_number
  by_cases h1 : (pyStrip input).isEmpty
  · simp only [h1, if_true]
    exact List.nodup_nil
  · simp only [bool_eq_false h1, Bool.false_eq_true, if_false]
    by_cases h2 : (input.filter isAsciiDigit).isEmpty
    · simp only [h2, if_true]
      exact List.nodup_nil
    · simp only [bool_eq_false h2, Bool.false_eq_true, if_false]
      rw [compose_tokens_freshExprs]
      exact (pickDigits_invariant _ [] s).2.2

/-- C10: during one composition call the used-formula set only grows
(both across one `get_unique_latex_for_digit` call and across a whole
digit group); when the uniqueness-checked path returns (fresh flag
`true`) the returned expression has been inserted (the new set is
exactly the expression consed onto the old one, and the expression was
not in the old set); when the placeholder path or the exhaustion
fallback returns (fresh flag `false`) the set is unchanged, so neither
of those results is ever inserted. -/
theorem C10_used_set_invariant :
    (∀ c used s, used ⊆ (get_unique_latex_for_digit c used s).2.1) ∧
    (∀ c used s, (get_unique_latex_for_digit c used s).1.2 = true →
        (get_unique_latex_for_digit c used s).2.1
          = (get_unique_latex_for_digit c used s).1.1 :: used ∧
        (get_unique_latex_for_digit c used s).1.1 ∉ used) ∧
    (∀ c used s, (get_unique_latex_for_digit c used s).1.2 = false →
        (get_unique_latex_for_digit c used s).2.1 = used) ∧
    (∀ ds used s, used ⊆ (pickDigits ds used s).2.1) := by
  refine ⟨?_, ?_, ?_, ?_⟩
  · intro c used s
    rcases get_unique_cases c used s with ⟨x, s', h, _⟩ | ⟨x, s', h⟩ <;> rw [h]
    · exact List.subset_cons_self _ _
    · exact List.Subset.refl _
  · intro c used s hf
    rcases get_unique_cases c used s with ⟨x, s', h, hx⟩ | ⟨x, s', h⟩
    · rw [h]
      exact ⟨rfl, hx⟩
    · rw [h] at hf
      cases hf
  · intro c used s hf
    rcases get_unique_cases c used s with ⟨x, s', h, hx⟩ | ⟨x, s', h⟩
    · rw [h] at hf
      cases hf
    · rw [h]
  · intro ds used s
    exact (pickDigits_invariant ds used s).1

/-- Witness for C10: a concrete fresh-path call (digit 3, empty used
set, all-zero source) inserts exactly its result; a concrete
placeholder call (character x) leaves the set unchanged. -/
theorem C10_used_set_invariant_witness :
    ((get_unique_latex_for_digit '3' [] zeroSrc).2.1
        = (get_unique_latex_for_digit '3' [] zeroSrc).1.1 :: [] ∧
      (get_unique_latex_for_digit '3' [] zeroSrc).1.1 ∉ ([] : List String)) ∧
    (get_unique_latex_for_digit 'x' [] zeroSrc).2.1 = [] :=
  ⟨C10_used_set_invariant.2.1 '3' [] zeroSrc (by decide),
   C10_used_set_invariant.2.2.1 'x' [] zeroSrc (by decide)⟩

theorem pickLoop_false_all_drawn (getT : RandSrc → List String × RandSrc)
    (used : List String) : ∀ (fuel : Nat) (s : RandSrc),
    (pickLoop getT used fuel s).1.2 = false →
      ∀ d ∈ attemptDraws getT fuel s, d ∈ used := by
  intro fuel
  induction fuel with
  | zero =>
    intro s _ d hd
    simp [attemptDraws] at hd
  | succ n ih =>
    intro s hf d hd
    simp only [attemptDraws] at hd
    by_cases hc : (choice (getT s).1 (getT s).2).1 ∈ used
    · have hstep : pickLoop getT used (n + 1) s
          = pickLoop getT used n (choice (getT s).1 (getT s).2).2 := by
        simp [pickLoop, hc]
      rw [hstep] at hf
      rcases List.mem_cons.mp hd with rfl | hd'
      · exact hc
      · exact ih _ hf d hd'
    · have hstep : (pickLoop getT used (n + 1) s).1.2 = true := by
        simp [pickLoop, hc]
      rw [hstep] at hf
      cases hf

theorem pickLoop_true_mem_draws (getT : RandSrc → List String × RandSrc)
    (used : List String) : ∀ (fuel : Nat) (s : RandSrc),
    (pickLoop getT used fuel s).1.2 = true →
      (pickLoop getT used fuel s).1.1 ∈ attemptDraws getT fuel s := by
  intro fuel
  induction fuel with
  | zero =>
    intro s hf
    cases hf
  | succ n ih =>
    intro s hf
    by_cases hc : (choice (getT s).1 (getT s).2).1 ∈ used
    · have hstep : pickLoop getT used (n + 1) s
          = pickLoop getT used n (choice (getT s).1 (getT s).2).2 := by
        simp [pickLoop, hc]
      rw [hstep] at hf ⊢
      simp only [attemptDraws]
      exact List.mem_cons_of_mem _ (ih _ hf)
    · have hstep : pickLoop getT used (n + 1) s
          = (((choice (getT s).1 (getT s).2).1, true),
             (choice (getT s).1 (getT s).2).1 :: used,
             (choice (getT s).1 (getT s).2).2) := by
        simp [pickLoop, hc]
      rw [hstep]
      simp only [attemptDraws]
      exact List.mem_cons_self _ _

/-- C7: the per-digit expression lookup is total (it is a function and
returns on every input).  A non-digit character, and more generally any
character without a template provider, yields the tagged placeholder
expression with the used set and random source untouched, and the
placeholder embeds the literal character.  For a digit with a provider
the call is the bounded retry loop; a fresh (`true`) result was never
in the used set and is one of the drawn values, while a fallback
(`false`) result leaves the used set unchanged and occurs only when
every one of the attempts drew an already-used value. -/
theorem C7_pick_unique_total_behaviour :
    (∀ c used s, isAsciiDigit c = false →
        get_unique_latex_for_digit c used s = ((eq_placeholder c, false), used, s)) ∧
    (∀ c used s, digit_template_provider c = none →
        get_unique_latex_for_digit c used s = ((eq_placeholder c, false), used, s)) ∧
    (∀ c, ∃ pre post, eq_placeholder c = pre ++ c.toString ++ post) ∧
    (∀ c getT used s, digit_template_provider c = some getT →
        isAsciiDigit c = true →
        get_unique_latex_for_digit c used s = pickLoop getT used MAX_UNIQUE_ATTEMPTS s) ∧
    (∀ getT used fuel s, (pickLoop getT used fuel s).1.2 = true →
        (pickLoop getT used fuel s).1.1 ∉ used ∧
        (pickLoop getT used fuel s).1.1 ∈ attemptDraws getT fuel s) ∧
    (∀ getT used fuel s, (pickLoop getT used fuel s).1.2 = false →
        (pickLoop getT used fuel s).2.1 = used ∧
        ∀ d ∈ attemptDraws getT fuel s, d ∈ used) := by
  refine ⟨?_, ?_, ?_, ?_, ?_, ?_⟩
  · intro c used s hc
    simp [get_unique_latex_for_digit, hc]
  · intro c used s hc
    by_cases hd : isAsciiDigit c
    · simp [get_unique_latex_for_digit, hd, hc]
    · simp [get_unique_latex_for_digit, bool_eq_false hd]
  · intro c
    exact ⟨"\\mathbf\x7b\\textit\x7b(", ")\x7d\x7d", rfl⟩
  · intro c getT used s hprov hdig
    simp [get_unique_latex_for_digit, hdig, hprov]
  · intro getT used fuel s hf
    rcases pickLoop_cases getT used fuel s with ⟨x, s', h, hx⟩ | ⟨x, s', h⟩
    · constructor
      · rw [h]
        exact hx
      · exact pickLoop_true_mem_draws getT used fuel s hf
    · rw [h] at hf
      cases hf
  · intro getT used fuel s hf
    rcases pickLoop_cases getT used fuel s with ⟨x, s', h, hx⟩ | ⟨x, s', h⟩
    · rw [h] at hf
      cases hf
    · exact ⟨by rw [h], pickLoop_false_all_drawn getT used fuel s hf⟩

/-- Witness for C7: the placeholder path at the non-digit character x,
the provider path at digit 3 (provider `get_3_templates`), a concrete
fresh pick from the empty used set, and a concrete exhausted pick when
the used set already holds the only value the all-zero source can
draw. -/
theorem C7_pick_unique_total_behaviour_witness :
    (get_unique_latex_for_digit 'x' [] zeroSrc
        = ((eq_placeholder 'x', false), [], zeroSrc)) ∧
    (get_unique_latex_for_digit '?' [] zeroSrc
        = ((eq_placeholder '?', false), [], zeroSrc)) ∧
    (get_unique_latex_for_digit '3' [] zeroSrc
        = pickLoop get_3_templates [] MAX_UNIQUE_ATTEMPTS zeroSrc) ∧
    ((pickLoop get_3_templates [] MAX_UNIQUE_ATTEMPTS zeroSrc).1.1 ∉ ([] : List String) ∧
      (pickLoop get_3_templates [] MAX_UNIQUE_ATTEMPTS zeroSrc).1.1
        ∈ attemptDraws get_3_templates MAX_UNIQUE_ATTEMPTS zeroSrc) ∧
    ((pickLoop get_3_templates [(get_3_templates zeroSrc).1.getD 0 ""]
          MAX_UNIQUE_ATTEMPTS zeroSrc).2.1
        = [(get_3_templates zeroSrc).1.getD 0 ""] ∧
      ∀ d ∈ attemptDraws get_3_templates MAX_UNIQUE_ATTEMPTS zeroSrc,
        d ∈ [(get_3_templates zeroSrc).1.getD 0 ""]) :=
  ⟨C7_pick_unique_total_behaviour.1 'x' [] zeroSrc (by decide),
   C7_pick_unique_total_behaviour.2.1 '?' [] zeroSrc rfl,
   C7_pick_unique_total_behaviour.2.2.2.1 '3' get_3_templates [] zeroSrc rfl (by decide),
   C7_pick_unique_total_behaviour.2.2.2.2.1 get_3_templates [] MAX_UNIQUE_ATTEMPTS zeroSrc
     (by decide),
   C7_pick_unique_total_behaviour.2.2.2.2.2 get_3_templates
     [(get_3_templates zeroSrc).1.getD 0 ""] MAX_UNIQUE_ATTEMPTS zeroSrc (by decide)⟩
theorem mem_flush {current : List String} {lines : List (List String)} {l : List String}
    (hc : current.length + 1 ≤ MAX_LINE_LENGTH)
    (hl : ∀ l' ∈ lines, l'.length ≤ MAX_LINE_LENGTH)
    (hml : l ∈ if current.isEmpty then lines else lines ++ [current]) :
    l.length ≤ MAX_LINE_LENGTH := by
  by_cases hemp : current.isEmpty
  · rw [if_pos hemp] at hml
    exact hl l hml
  · rw [if_neg hemp] at hml
    rcases List.mem_append.mp hml with hml' | hml'
    · exact hl l hml'
    · rw [List.mem_singleton.mp hml']
      omega

theorem groupBlock_of_three (ds : List String) (h3 : ds.length = 3) (rest : List String) :
    groupBlock (ds ++ sepClose :: rest)
      = (String.intercalate " " (sepOpen :: (ds ++ [sepClose ++ " "])), rest) := by
  unfold groupBlock
  have ht : (ds ++ sepClose :: rest).take 3 = ds := by
    rw [← h3]
    exact List.take_left ds _
  have hd : (ds ++ sepClose :: rest).drop 3 = sepClose :: rest := by
    rw [← h3]
    exact List.drop_left ds _
  rw [ht, hd]
  simp

theorem wrapLinesGo_line_cols :
    ∀ (fuel : Nat) (parts current : List String) (lines : List (List String)),
    current.length + 1 ≤ MAX_LINE_LENGTH →
    (∀ l ∈ lines, l.length ≤ MAX_LINE_LENGTH) →
    ∀ l ∈ wrapLinesGo fuel parts current lines, l.length ≤ MAX_LINE_LENGTH := by
  intro fuel
  induction fuel with
  | zero =>
    intro parts current lines hc hl l hml
    cases parts with
    | nil =>
      rw [wrapLinesGo] at hml
      exact mem_flush hc hl hml
    | cons p rest =>
      rw [wrapLinesGo] at hml
      exact mem_flush hc hl hml
  | succ n ih =>
    intro parts current lines hc hl l hml
    cases parts with
    | nil =>
      rw [wrapLinesGo] at hml
      exact mem_flush hc hl hml
    | cons p rest =>
      rw [wrapLinesGo] at hml
      have hlines : ∀ (col : String),
          ∀ l' ∈ lines ++ [current ++ [col]], l'.length ≤ MAX_LINE_LENGTH := by
        intro col l' hl'
        rcases List.mem_append.mp hl' with h' | h'
        · exact hl l' h'
        · rw [List.mem_singleton.mp h']
          simp only [List.length_append, List.length_singleton]
          omega
      by_cases hp : p = sepOpen
      · rw [if_pos hp] at hml
        by_cases hcond : MAX_LINE_LENGTH ≤ (current ++ [(groupBlock rest).1]).length
        · rw [if_pos hcond] at hml
          exact ih _ [] _ (by simp [MAX_LINE_LENGTH]) (hlines _) l hml
        · rw [if_neg hcond] at hml
          refine ih _ _ _ ?_ hl l hml
          simp only [List.length_append, List.length_singleton] at hcond ⊢
          omega
      · rw [if_neg hp] at hml
        by_cases hcond : MAX_LINE_LENGTH ≤ (current ++ [p]).length
        · rw [if_pos hcond] at hml
          exact ih _ [] _ (by simp [MAX_LINE_LENGTH]) (hlines _) l hml
        · rw [if_neg hcond] at hml
          refine ih _ _ _ ?_ hl l hml
          simp only [List.length_append, List.length_singleton] at hcond ⊢
          omega

/-- C9 counterexample: for the input `"+2125551234567"` under the
all-zero random source, the wrapped output places the atomic grouped
area-code block (the single column beginning with the group-open
bracket) as the last column of the second line, while the following
minor-gap separator opens the third line — the minor gap is a separate
column and is not combined with the group block into one wrapped
sub-block on the same line, contradicting the claim. -/
theorem C9_group_gap_counterexample :
    (((wrapLines ((tokensOf "+2125551234567".toList zeroSrc).map Tok.render)).getD 1
          []).getLast?).map (fun col => sepOpen.toList.isPrefixOf col.toList) = some true ∧
    ((wrapLines ((tokensOf "+2125551234567".toList zeroSrc).map Tok.render)).getD 2
        []).head? = some sepThin ∧
    sepThin ∉ (wrapLines ((tokensOf "+2125551234567".toList zeroSrc).map Tok.render)).getD 1
        [] := by
  set_option maxRecDepth 10000 in decide

/-- C9 amended: every wrapped output line holds at most
`MAX_LINE_LENGTH` (= 3) columns, and a group-open part followed by
three parts and the group-close part is always gathered into a single
atomic column (never split across lines); the minor-gap separator that
follows the grouped block in the token stream is, however, packed as
its own separate column and may land on a later line rather than being
combined with the group block. -/
theorem C9_line_wrapping_amended :
    (∀ parts line, line ∈ wrapLines parts → line.length ≤ MAX_LINE_LENGTH) ∧
    (∀ fuel ds rest current lines, ds.length = 3 →
        wrapLinesGo (fuel + 1) (sepOpen :: (ds ++ sepClose :: rest)) current lines
          = if MAX_LINE_LENGTH
                ≤ (current
                    ++ [String.intercalate " " (sepOpen :: (ds ++ [sepClose ++ " "]))]).length
            then
              wrapLinesGo fuel rest []
                (lines
                  ++ [current
                      ++ [String.intercalate " " (sepOpen :: (ds ++ [sepClose ++ " "]))]])
            else
              wrapLinesGo fuel rest
                (current ++ [String.intercalate " " (sepOpen :: (ds ++ [sepClose ++ " "]))])
                lines) := by
  constructor
  · intro parts line hm
    exact wrapLinesGo_line_cols parts.length parts [] []
      (by simp [MAX_LINE_LENGTH]) (by simp) line hm
  · intro fuel ds rest current lines h3
    rw [wrapLinesGo, if_pos rfl, groupBlock_of_three ds h3 rest]

/-- Witness for C9 amended: the single-part stream wraps into one line
of one column (at most three), and a concrete five-part group block
(`x y z` between the brackets) is gathered into one column. -/
theorem C9_line_wrapping_amended_witness :
    (["\\quad"] : List String).length ≤ MAX_LINE_LENGTH ∧
    wrapLinesGo 1 (sepOpen :: (["x", "y", "z"] ++ sepClose :: [])) [] []
      = if MAX_LINE_LENGTH
            ≤ (([] : List String)
                ++ [String.intercalate " "
                    (sepOpen :: (["x", "y", "z"] ++ [sepClose ++ " "]))]).length
        then
          wrapLinesGo 0 [] []
            (([] : List (List String))
              ++ [([] : List String)
                  ++ [String.intercalate " "
                      (sepOpen :: (["x", "y", "z"] ++ [sepClose ++ " "]))]])
        else
          wrapLinesGo 0 []
            (([] : List String)
              ++ [String.intercalate " "
                  (sepOpen :: (["x", "y", "z"] ++ [sepClose ++ " "]))])
            ([] : List (List String)) :=
  ⟨C9_line_wrapping_amended.1 ["\\quad"] ["\\quad"] (by decide),
   C9_line_wrapping_amended.2 0 ["x", "y", "z"] [] [] [] rfl⟩
